import Mathlib

/-!
Verification of the SQL schema-introspection utilities
(`src/langchain/src/util/sql_utils.ts`): a shallow embedding of the
module's pure logic, with the TypeORM `DataSource` replaced by an explicit
query-executor function `String → Except String rows`, and theorems
settling the specification's claims about it.

Modelling conventions:
 - a JS `string | undefined` value is `Option String`; interpolating it in a
   template literal renders `none` as the literal text "undefined";
 - a JS `boolean | undefined` used in a condition is `Option Bool` read
   through its truthiness (`none` is falsy);
 - a thrown JS error is the `Except.error` branch; errors this module throws
   itself carry their message (`DbError.errorMsg`), errors propagated from
   the executor are kept apart (`DbError.queryFailure`);
 - a result row returned by the executor is its ordered (column, value)
   pairs, each value already in the string form JS interpolation gives it.
-/

/-- Shape of one raw catalog row, as the interface `RawResultTableAndColumn`
declares it: `data_type` may be absent (`string | undefined`). -/
structure RawResultTableAndColumn where
  table_name : String
  column_name : String
  data_type : Option String
  is_nullable : String
deriving Repr, DecidableEq

/-- Interface `SqlColumn`: both `dataType` and `isNullable` are optional. -/
structure SqlColumn where
  columnName : String
  dataType : Option String
  isNullable : Option Bool
deriving Repr, DecidableEq

/-- Interface `SqlTable`. -/
structure SqlTable where
  tableName : String
  columns : List SqlColumn
deriving Repr, DecidableEq

/-- One sample row as the executor returns it: ordered (column name, value)
pairs, values in the string form JS template interpolation renders them. -/
abbrev SqlRow := List (String × String)

/-- JS template-literal rendering of a `string | undefined` value:
`undefined` interpolates as the literal text "undefined". -/
def renderOptString : Option String → String
  | none => "undefined"
  | some s => s

/-- JS truthiness of a `boolean | undefined` value: `undefined` is falsy. -/
def jsTruthy : Option Bool → Bool
  | none => false
  | some b => b

/-- The `sqlColumn` object built from one raw row inside `formatToSqlTable`
(sql_utils.ts:85-89): `isNullable = (is_nullable === "YES")`. -/
def toSqlColumn (oneResult : RawResultTableAndColumn) : SqlColumn :=
  { columnName := oneResult.column_name
    dataType := oneResult.data_type
    isNullable := some (oneResult.is_nullable == "YES") }

/-- The find-then-push step of `formatToSqlTable` (sql_utils.ts:90-101):
`sqlTable.find(t => t.tableName === name)` returns the first table with the
given name and the column is pushed onto it in place; when none exists a new
table holding just this column is appended at the end. -/
def pushColumnToTable (name : String) (col : SqlColumn) : List SqlTable → List SqlTable
  | [] => [{ tableName := name, columns := [col] }]
  | t :: ts =>
    if t.tableName = name then { t with columns := t.columns ++ [col] } :: ts
    else t :: pushColumnToTable name col ts

/-- Body of the `for (const oneResult of rawResultsTableAndColumn)` loop of
`formatToSqlTable` (sql_utils.ts:84-102). -/
def formatStep (sqlTable : List SqlTable) (oneResult : RawResultTableAndColumn) : List SqlTable :=
  pushColumnToTable oneResult.table_name (toSqlColumn oneResult) sqlTable

/-- `formatToSqlTable` (sql_utils.ts:80-105): fold the raw catalog rows, in
order, into the grouped list of tables. -/
def formatToSqlTable (rawResultsTableAndColumn : List RawResultTableAndColumn) : List SqlTable :=
  rawResultsTableAndColumn.foldl formatStep []

/-- The `for (const tableName of listTables)` loop of
`verifyListTablesExistInDatabase` (sql_utils.ts:48-54): throw on the first
name `onlyTableNames.includes` rejects. -/
def checkTablesLoop (onlyTableNames : List String) (errorPrefixMsg : String) :
    List String → Except String Unit
  | [] => Except.ok ()
  | tableName :: rest =>
    if tableName ∈ onlyTableNames then checkTablesLoop onlyTableNames errorPrefixMsg rest
    else Except.error
      (errorPrefixMsg ++ " the table " ++ tableName ++ " was not found in the database")

/-- `verifyListTablesExistInDatabase` (sql_utils.ts:39-56). -/
def verifyListTablesExistInDatabase (tablesFromDatabase : List SqlTable)
    (listTables : List String) (errorPrefixMsg : String) : Except String Unit :=
  let onlyTableNames := tablesFromDatabase.map (fun table => table.tableName)
  if 0 < listTables.length then checkTablesLoop onlyTableNames errorPrefixMsg listTables
  else Except.ok ()

/-- The postgres catalog query (sql_utils.ts:112-124), character for
character. -/
def postgresCatalogSql : String :=
  "SELECT\n    t.table_name,\n    c.*\nFROM\n    information_schema.tables t\n        JOIN information_schema.columns c\n             ON t.table_name = c.table_name\nWHERE\n        t.table_schema = 'public'\nORDER BY\n    t.table_name,\n    c.ordinal_position;"

/-- The sqlite catalog query (sql_utils.ts:132-147), character for
character. -/
def sqliteCatalogSql : String :=
  "SELECT \n   m.name AS table_name,\n   p.name AS column_name,\n   p.type AS data_type,\n   CASE \n      WHEN p.\"notnull\" = 0 THEN 'YES' \n      ELSE 'NO' \n   END AS is_nullable \nFROM \n   sqlite_master m \nJOIN \n   pragma_table_info(m.name) p \nWHERE \n   m.type = 'table' AND \n   m.name NOT LIKE 'sqlite_%';\n"

/-- The mysql catalog query (sql_utils.ts:155-162): the database name is
interpolated directly into the SQL text. -/
def mysqlCatalogSql (database : String) : String :=
  "SELECT TABLE_NAME AS table_name, COLUMN_NAME AS column_name, DATA_TYPE AS data_type, IS_NULLABLE AS is_nullable FROM INFORMATION_SCHEMA.COLUMNS WHERE TABLE_SCHEMA = '"
    ++ database ++ "';"

/-- Error outcomes of `getTableAndColumnsName`: an `Error(msg)` the module
itself throws, or a failure propagated from the query executor (distinct
thrown objects in the JS source). -/
inductive DbError where
  | errorMsg (msg : String)
  | queryFailure (e : String)
deriving Repr, DecidableEq

/-- One `await appDataSource.query(sql)` followed by `formatToSqlTable(rep)`
(sql_utils.ts:126-128 and its two copies): an executor failure propagates. -/
def runCatalogQuery (query : String → Except String (List RawResultTableAndColumn))
    (sql : String) : Except DbError (List SqlTable) :=
  match query sql with
  | Except.ok rep => Except.ok (formatToSqlTable rep)
  | Except.error e => Except.error (DbError.queryFailure e)

/-- `getTableAndColumnsName` (sql_utils.ts:107-170): dispatch on the dialect
tag of the data-source options; `database` is `options.database`, used only
by the mysql branch; any other dialect throws
`Error("Database type not implemented yet")`. -/
def getTableAndColumnsName (dialect database : String)
    (query : String → Except String (List RawResultTableAndColumn)) :
    Except DbError (List SqlTable) :=
  if dialect = "postgres" then runCatalogQuery query postgresCatalogSql
  else if dialect = "sqlite" then runCatalogQuery query sqliteCatalogSql
  else if dialect = "mysql" then runCatalogQuery query (mysqlCatalogSql database)
  else Except.error (DbError.errorMsg "Database type not implemented yet")

/-- `formatSqlResponseToSimpleTableString` (sql_utils.ts:172-186): each row
renders as its values, each preceded by one space, then a newline; an empty
(or non-array) result renders as the empty string. -/
def formatSqlResponseToSimpleTableString (rawResult : List SqlRow) : String :=
  if rawResult.length = 0 then ""
  else
    rawResult.foldl
      (fun globalString oneRow =>
        globalString ++
          ((oneRow.map Prod.snd).foldl
            (fun completeString columnValue => completeString ++ " " ++ columnValue) ""
            ++ "\n"))
      ""

/-- Rendering of one column inside the create-table declaration
(sql_utils.ts:205-207): the template
`columnName dataType (isNullable ? "" : "NOT NULL")` with single spaces
between the three parts. -/
def renderColumnDecl (currentColumn : SqlColumn) : String :=
  currentColumn.columnName ++ " " ++ renderOptString currentColumn.dataType ++ " " ++
    (if jsTruthy currentColumn.isNullable then "" else "NOT NULL")

/-- The `sqlCreateTableQuery` string built for one table
(sql_utils.ts:200-209): note the newline right after the opening
parenthesis and the " ) \n"-free closing (the source appends ") \n"). -/
def sqlCreateTableQuery (currentTable : SqlTable) : String :=
  "CREATE TABLE " ++ currentTable.tableName ++ " (\n" ++
    String.join (currentTable.columns.enum.map
      (fun kc => (if 0 < kc.1 then ", " else "") ++ renderColumnDecl kc.2)) ++
    ") \n"

/-- The `sqlSelectInfoQuery` string built for one table
(sql_utils.ts:211-217): backtick quoting for mysql, double quotes for every
other dialect. -/
def sqlSelectInfoQuery (dialect tableName : String) (nbSampleRow : Nat) : String :=
  if dialect = "mysql" then
    "SELECT * FROM `" ++ tableName ++ "` LIMIT " ++ toString nbSampleRow ++ ";\n"
  else
    "SELECT * FROM \"" ++ tableName ++ "\" LIMIT " ++ toString nbSampleRow ++ ";\n"

/-- The `columnNamesConcatString` legend line (sql_utils.ts:219-222). -/
def columnNamesConcatString (currentTable : SqlTable) : String :=
  currentTable.columns.foldl
    (fun completeString column => completeString ++ " " ++ column.columnName) "" ++ "\n"

/-- One iteration of the `for (const currentTable of tables)` loop of
`generateTableInfoFromTables` (sql_utils.ts:198-238): the four segments of a
table's block; a failing sample query is caught and leaves the sample
section empty. -/
def tableBlock (dialect : String) (query : String → Except String (List SqlRow))
    (nbSampleRow : Nat) (currentTable : SqlTable) : String :=
  let selectQuery := sqlSelectInfoQuery dialect currentTable.tableName nbSampleRow
  let sample :=
    match query selectQuery with
    | Except.ok infoObjectResult => formatSqlResponseToSimpleTableString infoObjectResult
    | Except.error _ => ""
  sqlCreateTableQuery currentTable ++ selectQuery ++ columnNamesConcatString currentTable
    ++ sample

/-- `generateTableInfoFromTables` (sql_utils.ts:188-242): empty string for an
`undefined` tables argument, otherwise the per-table blocks accumulated in
order. -/
def generateTableInfoFromTables (tables : Option (List SqlTable)) (dialect : String)
    (query : String → Except String (List SqlRow)) (nbSampleRow : Nat) : String :=
  match tables with
  | none => ""
  | some ts =>
    ts.foldl
      (fun globalString currentTable =>
        globalString ++ tableBlock dialect query nbSampleRow currentTable) ""

/-- Whether `pat` occurs as a contiguous run inside `l`. -/
def containsSub : List Char → List Char → Bool
  | [], pat => pat.isEmpty
  | c :: rest, pat => pat.isPrefixOf (c :: rest) || containsSub rest pat

/-- Whether `pattern` is a substring of `s`. -/
def strContains (s pattern : String) : Bool := containsSub s.data pattern.data

/-- The table names of a snapshot, in snapshot order. -/
def tableNames (ts : List SqlTable) : List String := ts.map (fun t => t.tableName)

/-- Columns of the first table of the snapshot carrying the given name
(`[]` when no table does): the lookup `sqlTable.find` performs. -/
def colsOf : List SqlTable → String → List SqlColumn
  | [], _ => []
  | t :: ts, name => if t.tableName = name then t.columns else colsOf ts name

/-- Specification-side characterisation of first-occurrence order: the names
already `seen`, extended by each further name at its first occurrence. -/
def firstOccurrences (seen : List String) : List String → List String
  | [] => seen
  | n :: ns => if n ∈ seen then firstOccurrences seen ns else firstOccurrences (seen ++ [n]) ns

/-- Specification-side rendering of the sample-selection statement as the
spec words it (4.3 step 2): quoted table name, LIMIT, semicolon, no
terminator. -/
def specSampleSelectionStatement (dialect tableName : String) (sampleRowCount : Nat) : String :=
  if dialect = "mysql" then
    "SELECT * FROM `" ++ tableName ++ "` LIMIT " ++ toString sampleRowCount ++ ";"
  else
    "SELECT * FROM \"" ++ tableName ++ "\" LIMIT " ++ toString sampleRowCount ++ ";"

/-- The Users table of the end-to-end example: id int not null, name text
nullable. -/
def usersTable : SqlTable :=
  { tableName := "Users"
    columns :=
      [ { columnName := "id", dataType := some "int", isNullable := some false }
      , { columnName := "name", dataType := some "text", isNullable := some true } ] }

/-- Executor of the end-to-end example: returns the two sample rows for the
Users sample query and fails on anything else. -/
def usersExecutor : String → Except String (List SqlRow) := fun sql =>
  if sql = "SELECT * FROM \"Users\" LIMIT 2;\n" then
    Except.ok [[("id", "1"), ("name", "a")], [("id", "2"), ("name", "b")]]
  else Except.error "unexpected query"

/-- An executor that fails on every query. -/
def failingExecutor : String → Except String (List SqlRow) := fun _ =>
  Except.error "boom"

/-- The raw catalog rows of the normalisation example. -/
def exampleCatalogRows : List RawResultTableAndColumn :=
  [ { table_name := "T1", column_name := "a", data_type := some "int", is_nullable := "NO" }
  , { table_name := "T1", column_name := "b", data_type := some "text", is_nullable := "YES" }
  , { table_name := "T2", column_name := "c", data_type := some "int", is_nullable := "NO" } ]

/-- Concatenation of the per-table blocks in snapshot order (the structure the
accumulator loop of `generateTableInfoFromTables` produces). -/
def renderBlocks (dialect : String) (query : String → Except String (List SqlRow))
    (nbSampleRow : Nat) : List SqlTable → String
  | [] => ""
  | t :: ts =>
    tableBlock dialect query nbSampleRow t ++ renderBlocks dialect query nbSampleRow ts

lemma foldl_tableBlock_eq (dialect : String) (query : String → Except String (List SqlRow))
    (nbSampleRow : Nat) :
    ∀ (ts : List SqlTable) (s : String),
      ts.foldl (fun g t => g ++ tableBlock dialect query nbSampleRow t) s =
        s ++ renderBlocks dialect query nbSampleRow ts := by
  intro ts
  induction ts with
  | nil => intro s; simp [renderBlocks, String.append_empty]
  | cons t ts ih => intro s; simp [renderBlocks, ih, String.append_assoc]

/-- C1: the end-to-end example string given by the spec is NOT the output: the
code puts a newline right after the opening parenthesis of the create-table
declaration (sql_utils.ts:200), which the spec's expected string omits. -/
theorem users_end_to_end_spec_string_ne :
    generateTableInfoFromTables (some [usersTable]) "postgres" usersExecutor 2 ≠
      "CREATE TABLE Users (id int NOT NULL, name text ) \nSELECT * FROM \"Users\" LIMIT 2;\n id name\n 1 a\n 2 b\n" := by
  decide

/-- C1 (amended): for the one-table Users snapshot with sample-row count 2 and
an executor answering the sample query with rows (1,a) and (2,b), the output
is the expected string with a newline after the opening parenthesis of the
create-table declaration. -/
theorem users_end_to_end_output :
    generateTableInfoFromTables (some [usersTable]) "postgres" usersExecutor 2 =
      "CREATE TABLE Users (\nid int NOT NULL, name text ) \nSELECT * FROM \"Users\" LIMIT 2;\n id name\n 1 a\n 2 b\n" := by
  decide

/-- C5: normalising the three example raw rows yields the two-table snapshot
[T1, T2] with T1's columns [a int not-null, b text nullable] and T2's [c int
not-null]; and in general the built column's `isNullable` is true exactly
when the raw row's `is_nullable` field equals "YES". -/
theorem formatToSqlTable_example_and_nullable :
    formatToSqlTable exampleCatalogRows =
      [ { tableName := "T1"
          columns :=
            [ { columnName := "a", dataType := some "int", isNullable := some false }
            , { columnName := "b", dataType := some "text", isNullable := some true } ] }
      , { tableName := "T2"
          columns :=
            [ { columnName := "c", dataType := some "int", isNullable := some false } ] } ] ∧
    ∀ r : RawResultTableAndColumn,
      (toSqlColumn r).isNullable = some true ↔ r.is_nullable = "YES" := by
  constructor
  · decide
  · intro r
    simp [toSqlColumn]

/-- C8: the sample-selection statement built for a table is the spec's
statement (backtick quoting of the table name for mysql, double quotes for
every other dialect) followed by a terminating newline. -/
theorem sqlSelectInfoQuery_quoting (dialect tableName : String) (nbSampleRow : Nat) :
    sqlSelectInfoQuery dialect tableName nbSampleRow =
      specSampleSelectionStatement dialect tableName nbSampleRow ++ "\n" ∧
    (dialect = "mysql" → sqlSelectInfoQuery dialect tableName nbSampleRow =
      "SELECT * FROM `" ++ tableName ++ "` LIMIT " ++ toString nbSampleRow ++ ";\n") ∧
    (dialect ≠ "mysql" → sqlSelectInfoQuery dialect tableName nbSampleRow =
      "SELECT * FROM \"" ++ tableName ++ "\" LIMIT " ++ toString nbSampleRow ++ ";\n") := by
  have hsc : (";" ++ "\n" : String) = ";\n" := rfl
  refine ⟨?_, fun h => by simp [sqlSelectInfoQuery, h], fun h => by simp [sqlSelectInfoQuery, h]⟩
  by_cases h : dialect = "mysql" <;>
    simp [sqlSelectInfoQuery, specSampleSelectionStatement, h, String.append_assoc, hsc]

/-- C9: the renderer is deterministic: two executors that agree as functions
from SQL text to row sequences yield byte-identical output on the same
snapshot, dialect and sample-row count. -/
theorem generateTableInfoFromTables_deterministic (tables : Option (List SqlTable))
    (dialect : String) (query1 query2 : String → Except String (List SqlRow))
    (nbSampleRow : Nat) (h : ∀ sql, query1 sql = query2 sql) :
    generateTableInfoFromTables tables dialect query1 nbSampleRow =
      generateTableInfoFromTables tables dialect query2 nbSampleRow := by
  have hq : query1 = query2 := funext h
  rw [hq]

/-- Witness for C9 at the concrete Users snapshot and executor. -/
theorem generateTableInfoFromTables_deterministic_witness :
    generateTableInfoFromTables (some [usersTable]) "postgres" usersExecutor 2 =
      generateTableInfoFromTables (some [usersTable]) "postgres" usersExecutor 2 :=
  generateTableInfoFromTables_deterministic (some [usersTable]) "postgres" usersExecutor
    usersExecutor 2 (fun _ => rfl)

/-- C10: an `undefined` tables argument yields the empty string, and a column
whose `dataType` is absent renders exactly as if its type text were the
literal "undefined" (shown concretely for an id column). -/
theorem generateTableInfo_undefined_handling :
    (∀ (dialect : String) (query : String → Except String (List SqlRow)) (nbSampleRow : Nat),
      generateTableInfoFromTables none dialect query nbSampleRow = "") ∧
    (∀ c : SqlColumn, c.dataType = none →
      renderColumnDecl c = renderColumnDecl { c with dataType := some "undefined" }) ∧
    renderColumnDecl { columnName := "id", dataType := none, isNullable := some false } =
      "id undefined NOT NULL" := by
  refine ⟨fun _ _ _ => rfl, ?_, by decide⟩
  intro c h
  simp [renderColumnDecl, h, renderOptString]

/-- C2: a dialect tag outside {postgres, sqlite, mysql} makes
`getTableAndColumnsName` fail with the unsupported-dialect error
("Database type not implemented yet"), for every database name and
executor; a dialect inside the set never raises an error this module
throws itself (an executor failure propagates as `queryFailure`, a
distinct outcome, and never as a silent empty result). -/
theorem getTableAndColumnsName_dialect_cases (dialect database : String)
    (query : String → Except String (List RawResultTableAndColumn)) :
    (dialect ∉ (["postgres", "sqlite", "mysql"] : List String) →
      getTableAndColumnsName dialect database query =
        Except.error (DbError.errorMsg "Database type not implemented yet")) ∧
    (dialect ∈ (["postgres", "sqlite", "mysql"] : List String) →
      ∀ msg, getTableAndColumnsName dialect database query ≠
        Except.error (DbError.errorMsg msg)) := by
  have hrun : ∀ (q : String → Except String (List RawResultTableAndColumn)) (sql msg : String),
      runCatalogQuery q sql ≠ Except.error (DbError.errorMsg msg) := by
    intro q sql msg
    unfold runCatalogQuery
    cases q sql <;> simp
  constructor
  · intro h
    simp only [List.mem_cons, List.not_mem_nil, or_false] at h
    push_neg at h
    obtain ⟨h1, h2, h3⟩ := h
    simp [getTableAndColumnsName, h1, h2, h3]
  · intro h msg
    simp only [List.mem_cons, List.not_mem_nil, or_false] at h
    rcases h with h | h | h <;> subst h <;> simp [getTableAndColumnsName] <;> apply hrun

lemma checkTablesLoop_ok_iff (onlyTableNames : List String) (errorPrefixMsg : String) :
    ∀ l : List String,
      checkTablesLoop onlyTableNames errorPrefixMsg l = Except.ok () ↔
        ∀ x ∈ l, x ∈ onlyTableNames := by
  intro l
  induction l with
  | nil => simp [checkTablesLoop]
  | cons a l ih =>
    by_cases h : a ∈ onlyTableNames
    · simp [checkTablesLoop, h, ih]
    · simp [checkTablesLoop, h]

lemma checkTablesLoop_error (onlyTableNames : List String) (errorPrefixMsg : String) :
    ∀ l : List String, (∃ x ∈ l, x ∉ onlyTableNames) →
      ∃ x ∈ l, x ∉ onlyTableNames ∧
        checkTablesLoop onlyTableNames errorPrefixMsg l =
          Except.error
            (errorPrefixMsg ++ " the table " ++ x ++ " was not found in the database") := by
  intro l
  induction l with
  | nil => simp
  | cons a l ih =>
    intro hex
    by_cases h : a ∈ onlyTableNames
    · obtain ⟨x, hx, hxn⟩ := hex
      rw [List.mem_cons] at hx
      rcases hx with hx | hx
      · exact absurd h (hx ▸ hxn)
      · obtain ⟨y, hy, hyn, hloop⟩ := ih ⟨x, hx, hxn⟩
        exact ⟨y, List.mem_cons_of_mem a hy, hyn, by simpa [checkTablesLoop, h] using hloop⟩
    · exact ⟨a, List.mem_cons_self a l, h, by simp [checkTablesLoop, h]⟩

/-- C4: `verifyListTablesExistInDatabase` never fails on an empty name list;
it returns cleanly exactly when every listed name is a table name of the
snapshot; and when some listed name is missing it fails with the message
"<context-label> the table <name> was not found in the database" for a
missing name of the list. -/
theorem verifyListTablesExistInDatabase_spec (tablesFromDatabase : List SqlTable)
    (listTables : List String) (errorPrefixMsg : String) :
    (listTables = [] →
      verifyListTablesExistInDatabase tablesFromDatabase listTables errorPrefixMsg =
        Except.ok ()) ∧
    (verifyListTablesExistInDatabase tablesFromDatabase listTables errorPrefixMsg =
        Except.ok () ↔
      ∀ name ∈ listTables, name ∈ tableNames tablesFromDatabase) ∧
    ((∃ name ∈ listTables, name ∉ tableNames tablesFromDatabase) →
      ∃ name ∈ listTables, name ∉ tableNames tablesFromDatabase ∧
        verifyListTablesExistInDatabase tablesFromDatabase listTables errorPrefixMsg =
          Except.error
            (errorPrefixMsg ++ " the table " ++ name ++ " was not found in the database")) := by
  cases listTables with
  | nil => simp [verifyListTablesExistInDatabase]
  | cons a l =>
    have hlen : 0 < (a :: l).length := by simp
    refine ⟨by simp, ?_, ?_⟩
    · simpa [verifyListTablesExistInDatabase, hlen, tableNames] using
        checkTablesLoop_ok_iff (tablesFromDatabase.map (fun t => t.tableName))
          errorPrefixMsg (a :: l)
    · intro hex
      have := checkTablesLoop_error (tablesFromDatabase.map (fun t => t.tableName))
        errorPrefixMsg (a :: l) (by simpa [tableNames] using hex)
      simpa [verifyListTablesExistInDatabase, hlen, tableNames] using this

/-- C7 (counterexample): the sqlite catalog query's text does reference an
internal/system catalog object — SQLite's own schema table `sqlite_master`
(a name with the internal `sqlite_` prefix) — so the claim that the selected
catalog SQL contains no reference to internal/system catalog objects fails
at the sqlite dialect. -/
theorem sqliteCatalogSql_references_sqlite_master :
    strContains sqliteCatalogSql "sqlite_master" = true := by
  decide

set_option maxRecDepth 4000 in
/-- C7 (amended): for every supported dialect the selected catalog SQL is
non-empty; the queries necessarily read system metadata catalogs, but each
restricts its result to user-visible tables: the sqlite query filters out
names matching the internal `sqlite_` name pattern, the postgres query
anchors to the `public` schema, and the mysql query to the configured
database's schema. -/
theorem catalogSql_nonempty_and_filters :
    postgresCatalogSql ≠ "" ∧ sqliteCatalogSql ≠ "" ∧
    (∀ database, mysqlCatalogSql database ≠ "") ∧
    strContains sqliteCatalogSql "m.name NOT LIKE 'sqlite_%'" = true ∧
    strContains postgresCatalogSql "t.table_schema = 'public'" = true ∧
    (∀ database, mysqlCatalogSql database =
      "SELECT TABLE_NAME AS table_name, COLUMN_NAME AS column_name, DATA_TYPE AS data_type, IS_NULLABLE AS is_nullable FROM INFORMATION_SCHEMA.COLUMNS WHERE TABLE_SCHEMA = '"
        ++ database ++ "';") := by
  refine ⟨by decide, by decide, ?_, by decide, by decide, fun _ => rfl⟩
  intro database h
  have hd := congrArg String.data h
  simp [mysqlCatalogSql, String.data_append] at hd

/-- C3: when the executor fails on table T's sample query, T's block is
exactly its create-table declaration, its select statement and its
column-name legend with an empty sample section; any table's block depends
on the executor only through that table's own sample query, so every other
table renders as it would under a succeeding executor; and the whole render
still completes as the concatenation of the per-table blocks in snapshot
order. -/
theorem generateTableInfo_sample_failure_isolated (ts : List SqlTable) (dialect : String)
    (query : String → Except String (List SqlRow)) (nbSampleRow : Nat) (T : SqlTable)
    (e : String)
    (hfail : query (sqlSelectInfoQuery dialect T.tableName nbSampleRow) = Except.error e) :
    tableBlock dialect query nbSampleRow T =
      sqlCreateTableQuery T ++ sqlSelectInfoQuery dialect T.tableName nbSampleRow ++
        columnNamesConcatString T ∧
    (∀ (query2 : String → Except String (List SqlRow)) (U : SqlTable),
      query2 (sqlSelectInfoQuery dialect U.tableName nbSampleRow) =
        query (sqlSelectInfoQuery dialect U.tableName nbSampleRow) →
      tableBlock dialect query2 nbSampleRow U = tableBlock dialect query nbSampleRow U) ∧
    generateTableInfoFromTables (some ts) dialect query nbSampleRow =
      renderBlocks dialect query nbSampleRow ts := by
  refine ⟨?_, ?_, ?_⟩
  · simp [tableBlock, hfail, String.append_empty]
  · intro query2 U h
    simp [tableBlock, h]
  · simpa [generateTableInfoFromTables, String.empty_append] using
      foldl_tableBlock_eq dialect query nbSampleRow ts ""

/-- Witness for C3: with the always-failing executor the whole render of the
Users snapshot still completes as the concatenation of per-table blocks. -/
theorem generateTableInfo_sample_failure_isolated_witness :
    generateTableInfoFromTables (some [usersTable]) "postgres" failingExecutor 2 =
      renderBlocks "postgres" failingExecutor 2 [usersTable] :=
  (generateTableInfo_sample_failure_isolated [usersTable] "postgres" failingExecutor 2
    usersTable "boom" rfl).2.2

lemma tableNames_pushColumnToTable (name : String) (col : SqlColumn) :
    ∀ ts : List SqlTable,
      tableNames (pushColumnToTable name col ts) =
        if name ∈ tableNames ts then tableNames ts else tableNames ts ++ [name] := by
  intro ts
  induction ts with
  | nil => simp [pushColumnToTable, tableNames]
  | cons t ts ih =>
    by_cases h : t.tableName = name
    · simp [pushColumnToTable, tableNames, h]
    · have hne : name ≠ t.tableName := fun hh => h hh.symm
      by_cases hm : name ∈ tableNames ts
      · simp only [tableNames] at ih hm ⊢
        simp [pushColumnToTable, h, hne, hm, ih]
      · simp only [tableNames] at ih hm ⊢
        simp [pushColumnToTable, h, hne, hm, ih]

lemma colsOf_pushColumnToTable_self (name : String) (col : SqlColumn) :
    ∀ ts : List SqlTable,
      colsOf (pushColumnToTable name col ts) name = colsOf ts name ++ [col] := by
  intro ts
  induction ts with
  | nil => simp [pushColumnToTable, colsOf]
  | cons t ts ih =>
    by_cases h : t.tableName = name
    · simp [pushColumnToTable, colsOf, h]
    · simp [pushColumnToTable, colsOf, h, ih]

lemma colsOf_pushColumnToTable_ne (name : String) (col : SqlColumn) (other : String)
    (hne : other ≠ name) :
    ∀ ts : List SqlTable,
      colsOf (pushColumnToTable name col ts) other = colsOf ts other := by
  have hne2 : ¬name = other := fun hh => hne hh.symm
  intro ts
  induction ts with
  | nil => simp [pushColumnToTable, colsOf, hne2]
  | cons t ts ih =>
    by_cases h : t.tableName = name
    · have hto : ¬t.tableName = other := h ▸ hne2
      simp [pushColumnToTable, colsOf, h, hto, hne2, hne]
    · by_cases h2 : t.tableName = other
      · simp [pushColumnToTable, colsOf, h, h2, hne, hne2]
      · simp [pushColumnToTable, colsOf, h, h2, ih]

lemma foldl_formatStep_names (rows : List RawResultTableAndColumn) :
    ∀ acc : List SqlTable,
      tableNames (rows.foldl formatStep acc) =
        firstOccurrences (tableNames acc) (rows.map (fun r => r.table_name)) := by
  induction rows with
  | nil => intro acc; simp [firstOccurrences]
  | cons r rows ih =>
    intro acc
    rw [List.map_cons, List.foldl_cons, ih]
    show firstOccurrences (tableNames (pushColumnToTable r.table_name (toSqlColumn r) acc)) _ =
      firstOccurrences (tableNames acc) (r.table_name :: rows.map (fun r => r.table_name))
    rw [tableNames_pushColumnToTable]
    by_cases hm : r.table_name ∈ tableNames acc <;> simp [firstOccurrences, hm]

lemma foldl_formatStep_cols (rows : List RawResultTableAndColumn) :
    ∀ (acc : List SqlTable) (name : String),
      colsOf (rows.foldl formatStep acc) name =
        colsOf acc name ++ (rows.filter (fun r => r.table_name == name)).map toSqlColumn := by
  induction rows with
  | nil => intro acc name; simp
  | cons r rows ih =>
    intro acc name
    rw [List.foldl_cons, ih]
    by_cases h : r.table_name = name
    · have hpush :
          colsOf (formatStep acc r) name = colsOf acc name ++ [toSqlColumn r] := by
        simpa [formatStep, h] using colsOf_pushColumnToTable_self name (toSqlColumn r) acc
      rw [hpush]
      simp [List.filter_cons, h, List.append_assoc]
    · have hpush : colsOf (formatStep acc r) name = colsOf acc name :=
        colsOf_pushColumnToTable_ne r.table_name (toSqlColumn r) name
          (fun hh => h hh.symm) acc
      rw [hpush]
      simp [List.filter_cons, h]

lemma firstOccurrences_nodup :
    ∀ (ns seen : List String), seen.Nodup → (firstOccurrences seen ns).Nodup := by
  intro ns
  induction ns with
  | nil => intro seen h; simpa [firstOccurrences] using h
  | cons n ns ih =>
    intro seen h
    by_cases hm : n ∈ seen
    · simpa [firstOccurrences, hm] using ih seen h
    · have happ : (seen ++ [n]).Nodup := by
        refine List.Nodup.append h (List.nodup_singleton n) ?_
        intro a ha hb
        rw [List.mem_singleton] at hb
        exact hm (hb ▸ ha)
      simpa [firstOccurrences, hm] using ih (seen ++ [n]) happ

lemma colsOf_of_mem :
    ∀ ts : List SqlTable, (tableNames ts).Nodup →
      ∀ t ∈ ts, colsOf ts t.tableName = t.columns := by
  intro ts
  induction ts with
  | nil => simp
  | cons s ts ih =>
    intro hnd t ht
    rw [tableNames, List.map_cons, List.nodup_cons] at hnd
    obtain ⟨hs, hnd'⟩ := hnd
    rw [List.mem_cons] at ht
    rcases ht with ht | ht
    · subst ht
      simp [colsOf]
    · have htn : t.tableName ∈ tableNames ts :=
        List.mem_map_of_mem (fun u => u.tableName) ht
      have hne : ¬s.tableName = t.tableName := fun hh => hs (hh ▸ htn)
      simpa [colsOf, hne] using ih hnd' t ht

/-- C6: for every raw-row list, the snapshot `formatToSqlTable` builds has
pairwise-distinct table names, its tables appear in first-occurrence order
of their names in the input rows, and each table's column list is exactly
the input rows bearing that table name, in input order, each turned into
its column. -/
theorem formatToSqlTable_invariants (rows : List RawResultTableAndColumn) :
    (tableNames (formatToSqlTable rows)).Nodup ∧
    tableNames (formatToSqlTable rows) =
      firstOccurrences [] (rows.map (fun r => r.table_name)) ∧
    ∀ t ∈ formatToSqlTable rows,
      t.columns = (rows.filter (fun r => r.table_name == t.tableName)).map toSqlColumn := by
  have hnames : tableNames (formatToSqlTable rows) =
      firstOccurrences [] (rows.map (fun r => r.table_name)) := by
    simpa [tableNames] using foldl_formatStep_names rows []
  have hnd : (tableNames (formatToSqlTable rows)).Nodup := by
    rw [hnames]
    exact firstOccurrences_nodup _ [] List.nodup_nil
  refine ⟨hnd, hnames, ?_⟩
  intro t ht
  have h1 := colsOf_of_mem (formatToSqlTable rows) hnd t ht
  have h2 := foldl_formatStep_cols rows [] t.tableName
  rw [← h1]
  simpa [formatToSqlTable, colsOf] using h2
